import Mathlib

/-!
# Verification of `src/backend/main.py` (BooksFlowAI backend shell)

Shallow embedding of the single backend entry point: a FastAPI application
that reads one environment variable, installs a CORS policy, and exposes
`GET /health`.  Python strings become `String`, the process environment
becomes a function `String → Option String`, and the health handler becomes
a pure function (the Python body is a single `return` of a dict literal,
with no I/O and no state access).
-/

/-- The process environment: a partial map from variable names to values.
`env k = none` models the variable being unset; `env k = some v` models the
variable being set to the string `v` (possibly the empty string). -/
def Env : Type := String → Option String

namespace os

/-- Embedding of Python `os.getenv(key, default)`: returns the variable's
value when the variable is present in the environment (even when that value
is the empty string), and `default` only when the variable is absent. -/
def getenv (env : Env) (key : String) (default : String) : String :=
  match env key with
  | some v => v
  | none => default

end os

/-- Application metadata, from `FastAPI(title=..., version=...)`. -/
structure AppMeta where
  title : String
  version : String
  deriving DecidableEq, Repr

/-- `app = FastAPI(title="BooksFlowAI Backend", version="0.1.0")`. -/
def app : AppMeta :=
  { title := "BooksFlowAI Backend", version := "0.1.0" }

/-- Embedding of the module-level assignment
`origins = [os.getenv("NEXT_PUBLIC_APP_URL", "http://localhost:3000")]`:
a one-element list literal built from the environment read. -/
def origins (env : Env) : List String :=
  [os.getenv env "NEXT_PUBLIC_APP_URL" "http://localhost:3000"]

/-- The keyword arguments accepted by `CORSMiddleware`, as passed in the
`app.add_middleware(...)` call. -/
structure CORSConfig where
  allow_origins : List String
  allow_credentials : Bool
  allow_methods : List String
  allow_headers : List String
  deriving DecidableEq, Repr

/-- Embedding of the `app.add_middleware(CORSMiddleware, ...)` call:
the configuration installed at startup, transcribed argument by argument
from the source. -/
def add_middleware (env : Env) : CORSConfig :=
  { allow_origins := origins env
    allow_credentials := true
    allow_methods := ["*"]
    allow_headers := ["*"] }

/-- An incoming HTTP request as seen by the route layer: query parameters
and headers are association lists of strings.  The health handler receives
none of them (its Python signature has no parameters), so the embedding
threads the request through the dispatch layer and the handler ignores it. -/
structure Request where
  query : List (String × String)
  headers : List (String × String)
  deriving DecidableEq, Repr

/-- An HTTP response: a status code and a JSON-object body modelled as an
association list of string fields. -/
structure Response where
  status : Nat
  body : List (String × String)
  deriving DecidableEq, Repr

/-- Embedding of the handler body `def health(): return {"status": "ok"}`:
the returned JSON object. -/
def health : List (String × String) :=
  [("status", "ok")]

/-- The full `GET /health` round trip: FastAPI wraps the handler's returned
dict in a 200 response.  The configuration and the request are threaded
through so that (in)dependence on them is expressible; the source handler
reads neither. -/
def healthResponse (_env : Env) (_req : Request) : Response :=
  { status := 200, body := health }

/-- Observable process state after startup: the only process-wide value the
source constructs is the allowed-origin list (read once, held for the
process lifetime). -/
structure AppState where
  originsList : List String
  deriving DecidableEq, Repr

/-- Startup: build the configuration from the environment. -/
def startup (env : Env) : AppState :=
  { originsList := origins env }

/-- The health handler as a state transition: it produces its fixed
response and, having no side effects in the source (a single `return` of a
literal), leaves the state exactly as received. -/
def healthStep (s : AppState) (_req : Request) : Response × AppState :=
  ({ status := 200, body := health }, s)

/-- A cross-origin request as seen by the CORS layer: the `Origin` header
value, the HTTP method (covering preflight `OPTIONS` and actual requests),
the request header names, and whether credentials are included. -/
structure CORSRequest where
  origin : String
  method : String
  headerNames : List String
  withCredentials : Bool
  deriving DecidableEq, Repr

/-- Modelled from the spec: the decision of the CORS middleware layer
(the `CORSMiddleware` implementation lives in the starlette library, not
under `src/`).  Per the spec, a cross-origin request is permitted exactly
when its origin is in the allowed-origin list, its method is allowed
(`"*"` allows every method), every request header is allowed (`"*"` allows
every header), and credentialed requests require `allow_credentials`. -/
def corsPermits (cfg : CORSConfig) (req : CORSRequest) : Bool :=
  cfg.allow_origins.contains req.origin
    && (cfg.allow_methods.contains "*" || cfg.allow_methods.contains req.method)
    && (cfg.allow_headers.contains "*"
        || req.headerNames.all (fun h => cfg.allow_headers.contains h))
    && (!req.withCredentials || cfg.allow_credentials)

/-! ## Claims -/

/-- C1 (counterexample): the claim fails when `NEXT_PUBLIC_APP_URL` is set
to the empty string: Python `os.getenv` substitutes the default only when
the variable is absent, so the allowed-origin list is `[""]`, not
`["http://localhost:3000"]`. -/
theorem C1_counterexample :
    origins (fun k => if k = "NEXT_PUBLIC_APP_URL" then some "" else none)
      ≠ ["http://localhost:3000"] := by
  decide

/-- C1 (amended): if `NEXT_PUBLIC_APP_URL` is unset the allowed-origin list
equals `["http://localhost:3000"]`; if it is set to the empty string the
list equals `[""]` (the default is NOT substituted for an empty value). -/
theorem C1_amended (env : Env) :
    (env "NEXT_PUBLIC_APP_URL" = none →
      origins env = ["http://localhost:3000"]) ∧
    (env "NEXT_PUBLIC_APP_URL" = some "" → origins env = [""]) := by
  constructor <;> intro h <;> simp [origins, os.getenv, h]

/-- C1 (witness): the amended claim evaluated at the all-unset environment
and at the environment mapping every variable to the empty string. -/
theorem C1_amended_witness :
    origins (fun _ => none) = ["http://localhost:3000"] ∧
    origins (fun _ => some "") = [""] :=
  ⟨(C1_amended (fun _ => none)).1 rfl, (C1_amended (fun _ => some "")).2 rfl⟩

/-- C2: for every environment and every request (any query parameters, any
headers), `GET /health` returns status 200 with body exactly
`{"status": "ok"}`. -/
theorem C2_health_fixed_response (env : Env) (req : Request) :
    healthResponse env req = { status := 200, body := [("status", "ok")] } :=
  rfl

/-- C3: if `NEXT_PUBLIC_APP_URL` is set to a non-empty string `V`, the
allowed-origin list equals `[V]`. -/
theorem C3_set_nonempty (env : Env) (V : String) (_hV : V ≠ "")
    (hset : env "NEXT_PUBLIC_APP_URL" = some V) :
    origins env = [V] := by
  simp [origins, os.getenv, hset]

/-- C3 (witness): the theorem applied at a concrete non-empty value. -/
theorem C3_set_nonempty_witness :
    origins (fun k =>
        if k = "NEXT_PUBLIC_APP_URL" then some "https://example.com" else none)
      = ["https://example.com"] :=
  C3_set_nonempty
    (fun k => if k = "NEXT_PUBLIC_APP_URL" then some "https://example.com" else none)
    "https://example.com" (by decide) (by simp)

/-- C4: the installed CORS configuration has exactly the computed
allowed-origin list, credentials allowed, all methods, all headers. -/
theorem C4_middleware_config (env : Env) :
    (add_middleware env).allow_origins = origins env ∧
    (add_middleware env).allow_credentials = true ∧
    (add_middleware env).allow_methods = ["*"] ∧
    (add_middleware env).allow_headers = ["*"] :=
  ⟨rfl, rfl, rfl, rfl⟩

/-- C5: for every environment the allowed-origin list is non-empty, and the
only operation of the system (the health handler) never mutates the state
holding it. -/
theorem C5_origins_nonempty_immutable (env : Env) :
    (startup env).originsList ≠ [] ∧
    (∀ (s : AppState) (req : Request), (healthStep s req).2 = s) :=
  ⟨by simp [startup, origins], fun _ _ => rfl⟩

/-- C6: `GET /health` is idempotent and side-effect-free: two successive
calls (the second run in the state left by the first) return identical
responses, and the state after both calls equals the initial state. -/
theorem C6_health_idempotent (s : AppState) (req₁ req₂ : Request) :
    (healthStep s req₁).1 = (healthStep (healthStep s req₁).2 req₂).1 ∧
    (healthStep (healthStep s req₁).2 req₂).2 = s :=
  ⟨rfl, rfl⟩

/-- C7: the health response is independent of the configuration: any two
environments (differing, equal, unset — anything) give the same response to
the same request. -/
theorem C7_health_config_independent (env₁ env₂ : Env) (req : Request) :
    healthResponse env₁ req = healthResponse env₂ req :=
  rfl

/-- C8: the health handler has no failure branch: it is a total function
(the embedding needs no `Except`, matching the Python body, a single
`return` of a literal), and its status is 200 for every invocation. -/
theorem C8_health_never_fails (env : Env) (req : Request) :
    (healthResponse env req).status = 200 :=
  rfl

/-- C9: under the installed configuration, a cross-origin request (any
method, so preflight `OPTIONS` included; any header names; with or without
credentials) is permitted exactly when its origin is in the allowed-origin
list. -/
theorem C9_cors_permit_iff_origin_allowed (env : Env) (req : CORSRequest) :
    corsPermits (add_middleware env) req = (origins env).contains req.origin := by
  simp [corsPermits, add_middleware]

/-- C10: for every environment (variable set to any string, or unset), the
allowed-origin list has exactly one element. -/
theorem C10_origins_singleton (env : Env) :
    (origins env).length = 1 :=
  rfl
